import Mathlib

/-!
Verification of the vidstack player sources against their natural-language
specification.  Each section shallowly embeds one source module:

* `MediaLoad`   — `src/packages/vidstack/src/core/state/media-load-controller.ts`
* `Dash`        — `src/packages/vidstack/src/providers/dash/lib-loader.ts`
* `VolumeSlider`— `VolumeSliderElement` (volume-slider element source)
* `SliderStore` — `createSliderStore`
* `AriaMenu`    — `src/apps/new-site/src/aria/menu.ts`
* `Selection`   — quality/track selection model (modelled from the spec)
-/

namespace Player

/-! ## MediaLoadController (`media-load-controller.ts`) -/

namespace MediaLoad

/-- The deferral mechanism chosen by `MediaLoadController.onAttach`:
schedule the init callback on the next animation frame, in an idle period,
behind an `IntersectionObserver`, or not at all. -/
inductive LoadEffect
  | raf
  | idlePeriod
  | observeVisible
  | noop
  deriving DecidableEq

/-- Embeds `MediaLoadController.onAttach`: on the server it returns at once;
otherwise it branches on the `load` prop (`'eager'` / `'idle'` / `'visible'`),
doing nothing for any other strategy. -/
def onAttach (server : Bool) (load : String) : LoadEffect :=
  if server then .noop
  else if load = "eager" then .raf
  else if load = "idle" then .idlePeriod
  else if load = "visible" then .observeVisible
  else .noop

/-- State of the `IntersectionObserver` installed for the `'visible'`
strategy: whether it is still connected, and how many times the init
callback has been invoked. -/
structure ObsState where
  connected : Bool
  fired : Nat
  deriving DecidableEq

/-- One delivery of an entry batch to the observer callback
(`entries[0].isIntersecting` abstracted to a `Bool`): when intersecting, the
source disconnects the observer and then invokes the callback; a
disconnected observer ignores further deliveries. -/
def obsStep (s : ObsState) (isIntersecting : Bool) : ObsState :=
  if s.connected && isIntersecting then { connected := false, fired := s.fired + 1 }
  else s

/-- Run the observer over a sequence of entry-batch deliveries, starting
connected and with the callback not yet invoked. -/
def obsRun (batches : List Bool) : ObsState :=
  batches.foldl obsStep { connected := true, fired := 0 }

lemma obsStep_not_connected (s : ObsState) (b : Bool) (h : s.connected = false) :
    obsStep s b = s := by
  simp [obsStep, h]

lemma obsFold_spec (batches : List Bool) (s : ObsState) :
    (batches.foldl obsStep s).fired
        = s.fired + (if s.connected = true ∧ batches.any id = true then 1 else 0) ∧
    (batches.foldl obsStep s).connected = (s.connected && !batches.any id) := by
  induction batches generalizing s with
  | nil => simp
  | cons b bs ih =>
    by_cases hcb : s.connected = true ∧ b = true
    · obtain ⟨hc, hb⟩ := hcb
      have hstep : obsStep s b = { connected := false, fired := s.fired + 1 } := by
        simp [obsStep, hc, hb]
      rw [List.foldl_cons, hstep]
      rcases ih { connected := false, fired := s.fired + 1 } with ⟨h1, h2⟩
      refine ⟨?_, ?_⟩
      · rw [h1]; simp [hc, hb]
      · rw [h2]; simp [hb]
    · have hstep : obsStep s b = s := by
        rcases hc : s.connected with _ | _ <;> rcases hb : b with _ | _ <;>
          simp [obsStep, hc, hb] <;> simp_all
      rw [List.foldl_cons, hstep]
      rcases ih s with ⟨h1, h2⟩
      refine ⟨?_, ?_⟩
      · rw [h1]
        rcases hc : s.connected with _ | _ <;> rcases hb : b with _ | _ <;> simp_all
      · rw [h2]
        rcases hc : s.connected with _ | _ <;> rcases hb : b with _ | _ <;> simp_all

lemma obsRun_fired (batches : List Bool) :
    (obsRun batches).fired = (if batches.any id = true then 1 else 0) := by
  have h := (obsFold_spec batches { connected := true, fired := 0 }).1
  simpa [obsRun] using h

lemma obsRun_connected (batches : List Bool) :
    (obsRun batches).connected = !batches.any id := by
  have h := (obsFold_spec batches { connected := true, fired := 0 }).2
  simpa [obsRun] using h

end MediaLoad

end Player

namespace Player

/-! ## DASHLibLoader (`providers/dash/lib-loader.ts`) -/

namespace Dash

/-- The `DashLibrary` union (`DashConstructor | DashConstructorLoader |
string | undefined`): a remote script URL, a statically imported
constructor (has a prototype), a dynamic-import loader whose resolved
module `default` is `some` valid constructor or `none` (invalid or the
loader threw), or `undefined`.  Constructors are identified by a `Nat`. -/
inductive DashLib
  | url (src : String)
  | staticCtor (c : Nat)
  | dynLoader (res : Option Nat)
  | undef
  deriving DecidableEq

/-- `isString(this._lib)` on the embedded library value. -/
def DashLib.isStr : DashLib → Bool
  | .url _ => true
  | _ => false

/-- Environment the loader runs in: whether `loadScript(src)` resolves
(`loadScript` lives in `utils/network.ts`, not under `src/`; modelled from
the spec as an externally determined success flag), whether
`window.dashjs.MediaPlayer` is a function and which constructor it is, and
whether `window.dashjs.supportsMediaSource()` holds. -/
structure DashEnv where
  scriptLoadOk : Bool
  windowCtor : Option Nat
  supportsMediaSource : Bool
  deriving DecidableEq

/-- The distinguishable failures fed to `onLoadError`. -/
inductive DashErr
  | scriptFail
  | badWindowCtor
  | badDynImport
  deriving DecidableEq

/-- Modelled from the spec: `coerceToError` (`utils/error.ts`, not under
`src/`) normalizes an arbitrary thrown value into an `Error`; on our
abstract errors it is the identity. -/
def coerceToError (e : DashErr) : DashErr := e

/-- A call to one of the `LoadDASHConstructorCallbacks` that
`_startLoading` wires to its `_onLoadStart` / `_onLoaded` / `_onLoadError`
methods. -/
inductive CbCall
  | onLoadStart
  | onLoaded (c : Nat)
  | onLoadError (e : DashErr)
  deriving DecidableEq

/-- Observable outcomes on the player/media context: the events dispatched
by `_onLoadStart` / `_onLoaded` / `_onLoadError` and the unsupported branch
of `_startLoading`, the invocation of the success callback
`this._callback(ctor)`, and `delegate._notify('error', {code})`. -/
inductive DashEv
  | dashLibLoadStart
  | dashLibLoaded (c : Nat)
  | callbackInvoked (c : Nat)
  | dashLibLoadError (e : DashErr)
  | dashUnsupported
  | errorNotified (code : Nat)
  deriving DecidableEq

/-- What each loader-callback invocation does on the player:
`_onLoadStart` dispatches `dash-lib-load-start`; `_onLoaded` dispatches
`dash-lib-loaded` with the constructor and then invokes the success
callback with it; `_onLoadError` coerces the error, dispatches
`dash-lib-load-error` with it and notifies the delegate with code 4. -/
def interpretCb : CbCall → List DashEv
  | .onLoadStart => [.dashLibLoadStart]
  | .onLoaded c => [.dashLibLoaded c, .callbackInvoked c]
  | .onLoadError e => [.dashLibLoadError (coerceToError e), .errorNotified 4]

/-- Embeds `loadDASHScript`: a non-string source returns `undefined` at
once without touching the callbacks; otherwise `onLoadStart` fires, the
script is loaded, and either `window.dashjs.MediaPlayer` is a valid
constructor (`onLoaded`, return it) or the failure lands in `onLoadError`
and `undefined` is returned. -/
def loadDASHScript (src : DashLib) (env : DashEnv) : Option Nat × List CbCall :=
  match src with
  | .url _ =>
    if env.scriptLoadOk then
      match env.windowCtor with
      | some c => (some c, [.onLoadStart, .onLoaded c])
      | none => (none, [.onLoadStart, .onLoadError .badWindowCtor])
    else (none, [.onLoadStart, .onLoadError .scriptFail])
  | _ => (none, [])

/-- Embeds `importDASH`: `undefined` returns at once with no callbacks; a
static constructor fires `onLoadStart` then `onLoaded`; a dynamic loader
fires `onLoadStart` and then either `onLoaded` on a valid module default or
`onLoadError` when the default is missing/invalid (or the loader threw —
a string, which is not callable, also lands there). -/
def importDASH (lib : DashLib) : Option Nat × List CbCall :=
  match lib with
  | .undef => (none, [])
  | .staticCtor c => (some c, [.onLoadStart, .onLoaded c])
  | .dynLoader (some c) => (some c, [.onLoadStart, .onLoaded c])
  | .dynLoader none => (none, [.onLoadStart, .onLoadError .badDynImport])
  | .url _ => (none, [.onLoadStart, .onLoadError .badDynImport])

/-- Embeds `DASHLibLoader._startLoading`: try `loadDASHScript`; if it gave
`undefined` and the library is not a string, try `importDASH`; with no
constructor resolve `null`; with a constructor but no MediaSource support,
dispatch `dash-unsupported`, notify error code 4 and resolve `null`;
otherwise resolve the constructor.  The second component is the full
observable event trace. -/
def startLoading (lib : DashLib) (env : DashEnv) : Option Nat × List DashEv :=
  let r1 := loadDASHScript lib env
  let r2 := if r1.1.isNone && !lib.isStr then
      let ri := importDASH lib
      (ri.1, r1.2 ++ ri.2)
    else r1
  let tr := r2.2.flatMap interpretCb
  match r2.1 with
  | none => (none, tr)
  | some c =>
    if env.supportsMediaSource then (some c, tr)
    else (none, tr ++ [.dashUnsupported, .errorNotified 4])

/-- Is this event `dash-lib-load-start`? -/
def isStartEv : DashEv → Bool
  | .dashLibLoadStart => true
  | _ => false

/-- Is this event `dash-lib-loaded`? -/
def isLoadedEv : DashEv → Bool
  | .dashLibLoaded _ => true
  | _ => false

/-- Is this event `dash-lib-load-error`? -/
def isErrorEv : DashEv → Bool
  | .dashLibLoadError _ => true
  | _ => false

/-- Every `dash-lib-loaded` event in the trace is immediately followed by
the success callback invoked with the same constructor. -/
def loadedThenCallback : List DashEv → Bool
  | .dashLibLoaded c :: .callbackInvoked c2 :: rest =>
      c == c2 && loadedThenCallback (.callbackInvoked c2 :: rest)
  | .dashLibLoaded _ :: _ => false
  | [] => true
  | _ :: rest => loadedThenCallback rest

end Dash

/-! ## VolumeSliderElement and createSliderStore -/

namespace VolumeSlider

/-- Modelled from the spec: `round` from `utils/number.js` is not under
`src/`; per the spec/claims it rounds to the given number of decimal
places (JS `Math.round` semantics, i.e. half rounds up). -/
def jsRound (x : ℚ) (p : ℕ) : ℚ := (round (x * 10 ^ p) : ℚ) / 10 ^ p

/-- Observable state of a `VolumeSliderElement`: the `mediaVolume` context
value mirrored from the media store's `volume` field, the widget-local
`currentVolume` reactive state, and whether the element currently carries
the `dragging` attribute. -/
structure Elem where
  mediaVolume : ℚ
  currentVolume : ℚ
  draggingAttr : Bool
  deriving DecidableEq

/-- The element constructor: `mediaVolume` starts at the volume context's
initial value and `currentVolume` at `mediaVolume * 100`; no `dragging`
attribute is present. -/
def initElem (ctxInitialVolume : ℚ) : Elem :=
  { mediaVolume := ctxInitialVolume
    currentVolume := ctxInitialVolume * 100
    draggingAttr := false }

/-- A user-intent command issued through `MediaRemoteControl`. -/
inductive RemoteCommand
  | changeVolume (v : ℚ)
  deriving DecidableEq

/-- Embeds `handleSliderValueChange`: store the slider value in the
widget-local `currentVolume`, then issue
`remoteControl.changeVolume(round(newVolume / 100, 3))`.  The handler has
no channel to the media store itself: its only outputs are the new widget
state and the emitted intent commands. -/
def handleSliderValueChange (s : Elem) (newVolume : ℚ) : Elem × List RemoteCommand :=
  ({ s with currentVolume := newVolume },
   [.changeVolume (jsRound (newVolume / 100) 3)])

/-- Embeds the `update` lifecycle hook: when the changed properties include
`mediaVolume`, recompute `currentVolume` as `mediaVolume * 100`. -/
def update (s : Elem) (mediaVolumeChanged : Bool) : Elem :=
  if mediaVolumeChanged then { s with currentVolume := s.mediaVolume * 100 } else s

/-- A volume-context update arriving from the media store: the context
consumer writes `mediaVolume` and `update` runs with `mediaVolume` among
the changed properties. -/
def onMediaVolumeChange (s : Elem) (v : ℚ) : Elem :=
  update { s with mediaVolume := v } true

/-- The `volume` getter: `round(currentVolume / 100, 3)`. -/
def volume (s : Elem) : ℚ := jsRound (s.currentVolume / 100) 3

/-- Embeds `handleSliderDragStart`: `setAttribute('dragging', '')`. -/
def handleSliderDragStart (s : Elem) : Elem := { s with draggingAttr := true }

/-- Embeds `handleSliderDragEnd`: `removeAttribute('dragging')`. -/
def handleSliderDragEnd (s : Elem) : Elem := { s with draggingAttr := false }

end VolumeSlider

namespace SliderStore

/-- The record returned by `createSliderStore` (initial values of its
writable stores; `interactive` is the derived store). -/
structure Store where
  value : ℚ
  pointerValue : ℚ
  dragging : Bool
  pointing : Bool
  deriving DecidableEq

/-- Embeds `createSliderStore`: `value` starts at 50, `pointerValue` at 0,
and both `dragging` and `pointing` start `false`. -/
def createSliderStore : Store :=
  { value := 50, pointerValue := 0, dragging := false, pointing := false }

/-- The derived `interactive` store: `dragging || pointing`. -/
def interactive (s : Store) : Bool := s.dragging || s.pointing

end SliderStore

/-! ## ARIA menu (`apps/new-site/src/aria/menu.ts`) -/

namespace AriaMenu

lemma digitChar_injOn : ∀ a : ℕ, a < 10 → ∀ b : ℕ, b < 10 →
    Nat.digitChar a = Nat.digitChar b → a = b := by decide

lemma digitChar_ne_t : ∀ d : ℕ, d < 10 → Nat.digitChar d ≠ 't' := by decide

lemma toDigitsCore_eq_digits (b : ℕ) (hb : 1 < b) :
    ∀ (f n : ℕ) (ds : List Char), 0 < n → n < b ^ f →
      Nat.toDigitsCore b f n ds = ((Nat.digits b n).map Nat.digitChar).reverse ++ ds := by
  intro f
  induction f with
  | zero =>
    intro n ds h0 hf
    simp only [pow_zero, Nat.lt_one_iff] at hf
    omega
  | succ f ih =>
    intro n ds h0 hf
    by_cases hdiv : n / b = 0
    · have hdig : Nat.digits b n = [n % b] := by
        rw [Nat.digits_def' hb h0, hdiv, Nat.digits_zero]
      rw [Nat.toDigitsCore, hdig]
      simp [hdiv]
    · have hb0 : 0 < b := by omega
      have hlt : n / b < b ^ f := Nat.nat_repr_len_aux n b f hb0 hf
      have h0' : 0 < n / b := Nat.pos_of_ne_zero hdiv
      have hrec := ih (n / b) (Nat.digitChar (n % b) :: ds) h0' hlt
      rw [Nat.toDigitsCore]
      simp only [hdiv, if_false]
      rw [hrec, Nat.digits_def' hb h0]
      simp [List.append_assoc]

lemma repr_eq_digitString (n : ℕ) (h0 : 0 < n) :
    Nat.repr n = (((Nat.digits 10 n).map Nat.digitChar).reverse).asString := by
  show (Nat.toDigits 10 n).asString = _
  have hlt : n < 10 ^ (n + 1) :=
    lt_of_lt_of_le (Nat.lt_pow_self (by norm_num) n)
      (Nat.pow_le_pow_right (by norm_num) (Nat.le_succ n))
  rw [Nat.toDigits, toDigitsCore_eq_digits 10 (by norm_num) (n + 1) n [] h0 hlt,
    List.append_nil]

lemma digits_map_digitChar_inj :
    ∀ (l1 l2 : List ℕ), (∀ d ∈ l1, d < 10) → (∀ d ∈ l2, d < 10) →
      l1.map Nat.digitChar = l2.map Nat.digitChar → l1 = l2 := by
  intro l1
  induction l1 with
  | nil =>
    intro l2 _ _ h
    cases l2 with
    | nil => rfl
    | cons b t => simp at h
  | cons a t ih =>
    intro l2 h1 h2 h
    cases l2 with
    | nil => simp at h
    | cons a2 t2 =>
      simp only [List.map_cons, List.cons.injEq] at h
      have ha : a = a2 :=
        digitChar_injOn a (h1 a (by simp)) a2 (h2 a2 (by simp)) h.1
      have ht : t = t2 :=
        ih t2 (fun d hd => h1 d (by simp [hd])) (fun d hd => h2 d (by simp [hd])) h.2
      rw [ha, ht]

lemma repr_zero_data : (Nat.repr 0).data = ['0'] := rfl

lemma repr_injective : ∀ m n : ℕ, Nat.repr m = Nat.repr n → m = n := by
  have key : ∀ m n : ℕ, 0 < m → 0 < n → Nat.repr m = Nat.repr n → m = n := by
    intro m n hm hn h
    rw [repr_eq_digitString m hm, repr_eq_digitString n hn] at h
    have hdata : ((Nat.digits 10 m).map Nat.digitChar).reverse
        = ((Nat.digits 10 n).map Nat.digitChar).reverse :=
      congrArg String.data h
    have hmap := List.reverse_injective hdata
    have hdg : Nat.digits 10 m = Nat.digits 10 n :=
      digits_map_digitChar_inj _ _
        (fun d hd => Nat.digits_lt_base (by norm_num) hd)
        (fun d hd => Nat.digits_lt_base (by norm_num) hd) hmap
    exact Nat.digits.injective 10 hdg
  have zero_case : ∀ n : ℕ, 0 < n → Nat.repr n = Nat.repr 0 → False := by
    intro n hn h
    rw [repr_eq_digitString n hn] at h
    have hdata : ((Nat.digits 10 n).map Nat.digitChar).reverse = ['0'] :=
      congrArg String.data h
    have hmap : (Nat.digits 10 n).map Nat.digitChar = ['0'] := by
      have := congrArg List.reverse hdata
      simpa using this
    have hdg : Nat.digits 10 n = [0] :=
      digits_map_digitChar_inj _ [0]
        (fun d hd => Nat.digits_lt_base (by norm_num) hd)
        (by intro d hd; simp at hd; omega)
        (by simpa using hmap)
    have hn0 : n = Nat.ofDigits 10 (Nat.digits 10 n) := (Nat.ofDigits_digits 10 n).symm
    rw [hdg] at hn0
    simp [Nat.ofDigits] at hn0
    omega
  intro m n h
  rcases Nat.eq_zero_or_pos m with hm | hm <;> rcases Nat.eq_zero_or_pos n with hn | hn
  · omega
  · exact absurd (h.symm.trans (by rw [hm])) (fun hh => zero_case n hn hh)
  · exact absurd (h.trans (by rw [hn])) (fun hh => zero_case m hm hh)
  · exact key m n hm hn h

lemma repr_head_digit (n : ℕ) :
    ∃ d, d < 10 ∧ (Nat.repr n).data.head? = some (Nat.digitChar d) := by
  rcases Nat.eq_zero_or_pos n with h0 | h0
  · subst h0
    exact ⟨0, by norm_num, rfl⟩
  · have hd : (Nat.repr n).data = ((Nat.digits 10 n).map Nat.digitChar).reverse := by
      rw [repr_eq_digitString n h0]
      rfl
    have hne : Nat.digits 10 n ≠ [] :=
      Nat.digits_ne_nil_iff_ne_zero.mpr (Nat.pos_iff_ne_zero.mp h0)
    rcases List.eq_nil_or_concat (Nat.digits 10 n) with hnil | ⟨L, x, hLx⟩
    · exact absurd hnil hne
    · refine ⟨x, Nat.digits_lt_base (by norm_num) (by rw [hLx]; simp), ?_⟩
      rw [hd, hLx]
      simp

/-- The trigger id `` `aria-menu-trigger-${_id}` `` for instance counter
value `_id = n`. -/
def triggerIdStr (n : ℕ) : String := "aria-menu-trigger-" ++ Nat.repr n

/-- The menu id `` `aria-menu-${_id}` `` for instance counter value
`_id = n`. -/
def menuIdStr (n : ℕ) : String := "aria-menu-" ++ Nat.repr n

lemma triggerIdStr_inj (a b : ℕ) (h : triggerIdStr a = triggerIdStr b) : a = b := by
  apply repr_injective
  apply String.ext
  have hd := congrArg String.data h
  simp only [triggerIdStr, String.data_append] at hd
  exact List.append_cancel_left hd

lemma menuIdStr_inj (a b : ℕ) (h : menuIdStr a = menuIdStr b) : a = b := by
  apply repr_injective
  apply String.ext
  have hd := congrArg String.data h
  simp only [menuIdStr, String.data_append] at hd
  exact List.append_cancel_left hd

lemma triggerIdStr_ne_menuIdStr (a b : ℕ) : triggerIdStr a ≠ menuIdStr b := by
  intro h
  have hd := congrArg String.data h
  simp only [triggerIdStr, menuIdStr, String.data_append] at hd
  have hsplit : (['a', 'r', 'i', 'a', '-', 'm', 'e', 'n', 'u', '-', 't', 'r', 'i',
        'g', 'g', 'e', 'r', '-'] : List Char)
      = ['a', 'r', 'i', 'a', '-', 'm', 'e', 'n', 'u', '-']
          ++ 't' :: ['r', 'i', 'g', 'g', 'e', 'r', '-'] := by decide
  rw [hsplit, List.append_assoc] at hd
  have htail := List.append_cancel_left hd
  have hhead : (Nat.repr b).data.head? = some 't' := by
    rw [← htail]
    rfl
  obtain ⟨d, hd10, hdig⟩ := repr_head_digit b
  rw [hdig] at hhead
  exact digitChar_ne_t d hd10 (by injection hhead)

/-- The attributes and inline styles the menu controls read and write on an
element; `none` means the attribute is absent. -/
structure ElAttrs where
  idAttr : Option String := none
  role : Option String := none
  ariaControls : Option String := none
  ariaExpanded : Option String := none
  ariaHaspopup : Option String := none
  ariaHidden : Option String := none
  ariaDescribedby : Option String := none
  tabindex : Option String := none
  styleDisplay : Option String := none
  stylePointerEvents : Option String := none
  stylePosition : Option String := none
  deriving DecidableEq

/-- The `AriaMenuOptions` fields the embedded code branches on
(`type?: 'menu' | 'dialog'` kept as an optional string; the popper option
`noPlacement` is part of the merged options object). -/
structure AriaMenuOptions where
  type : Option String := none
  portal : Bool := false
  preventScroll : Bool := false
  defaultOpen : Bool := false
  hover : Bool := false
  submenu : Bool := false
  noOutSideClick : Bool := false
  noPlacement : Bool := false
  deriving DecidableEq

/-- Embeds the attribute writes of `menuTrigger(el)` for the instance with
counter value `n`: set `id`, default `role` to `'button'` only when no role
is present, point `aria-controls` at the menu id, set `aria-expanded`
`'false'` and `aria-haspopup` to `options.type ?? 'menu'`. -/
def menuTrigger (n : ℕ) (opts : AriaMenuOptions) (el : ElAttrs) : ElAttrs :=
  { el with
    idAttr := some (triggerIdStr n)
    role := if el.role = none then some "button" else el.role
    ariaControls := some (menuIdStr n)
    ariaExpanded := some "false"
    ariaHaspopup := some (opts.type.getD "menu") }

/-- Embeds the attribute/style writes of `menu(el)` for the instance with
counter value `n`: position `absolute` unless portalled or `noPlacement`,
pointer-events and display off, and the id/role/tabindex/aria contract. -/
def menu (n : ℕ) (opts : AriaMenuOptions) (el : ElAttrs) : ElAttrs :=
  let el2 := if opts.portal then el
    else if opts.noPlacement = false then { el with stylePosition := some "absolute" }
    else el
  { el2 with
    stylePointerEvents := some "none"
    styleDisplay := some "none"
    idAttr := some (menuIdStr n)
    role := some "menu"
    tabindex := some "-1"
    ariaHidden := some "true"
    ariaDescribedby := some (triggerIdStr n) }

/-- The kind of DOM event driving a menu transition, as far as
`isKeyboardEvent(event)` can distinguish it. -/
inductive EvKind
  | keyboard
  | pointer
  | noEvent
  deriving DecidableEq

/-- Embeds `isKeyboardEvent(event)` (also false for a missing event). -/
def isKeyboardEvent : EvKind → Bool
  | .keyboard => true
  | _ => false

/-- Where keyboard focus currently is, as far as the menu code moves it. -/
inductive FocusTarget
  | menuEl
  | triggerEl
  | other
  deriving DecidableEq

/-- State of one `createAriaMenu` instance: the attached trigger/menu
elements (with their attributes), the `_isMenuOpen` store together with the
store write still pending in `requestAnimationFrame`, the document
scrollbar flag, whether the focus trap is currently registered in
`_openDisposal`, the focus location, and whether the global `activeMenu`
points at this menu. -/
structure MenuState where
  trigger : Option ElAttrs := none
  menuEl : Option ElAttrs := none
  isMenuOpenStore : Bool := false
  pendingFrame : Option Bool := none
  scrollbarHidden : Bool := false
  trapInstalled : Bool := false
  focusTarget : FocusTarget := .other
  activeMenuThis : Bool := false
  deriving DecidableEq

/-- Externally observable actions a transition performs. -/
inductive MenuFx
  | watchPosition
  | outsideClickListener
  | ariaOpenDispatched
  | focusMenu
  | trapInstall
  | ariaCloseDispatched
  | focusTrigger
  | openDisposalDisposed
  | setAriaExpanded (v : String)
  | setAriaHidden (v : String)
  | scrollbarToggle (hidden : Bool)
  | frameScheduled
  deriving DecidableEq

/-- `ariaBool` (`utils/aria.ts`, not under `src/`; modelled from the spec)
and `String(b)`: the strings `'true'` / `'false'`. -/
def boolStr (b : Bool) : String := if b then "true" else "false"

/-- Embeds the `onShow` path: `_popper.show` runs the given callback
(`popper.ts` is not under `src/`; modelled from the spec, the popper shows
the panel and invokes the callback).  The callback registers the position
watcher and outside-click listener in `_openDisposal` (per options), clears
the menu's `pointer-events`, dispatches `aria-open`, and — only for a
keyboard event — focuses the menu and installs the focus trap; finally the
global `activeMenu` is set to this menu element. -/
def onShow (opts : AriaMenuOptions) (ev : EvKind) (s : MenuState) :
    MenuState × List MenuFx :=
  let fx0 : List MenuFx :=
    (if opts.noPlacement = false then [.watchPosition] else [])
      ++ (if opts.noOutSideClick = false then [.outsideClickListener] else [])
  match s.menuEl with
  | some m =>
    let kb := isKeyboardEvent ev
    ({ s with
        menuEl := some { m with stylePointerEvents := some "" }
        focusTarget := if kb then .menuEl else s.focusTarget
        trapInstalled := if kb then true else s.trapInstalled
        activeMenuThis := true },
     fx0 ++ [.ariaOpenDispatched] ++ (if kb then [.focusMenu, .trapInstall] else []))
  | none => ({ s with activeMenuThis := false }, fx0)

/-- Embeds the `onHide` path: `_popper.hide` runs the given callback
(popper modelled from the spec as above).  The callback disposes
`_openDisposal` (removing the focus trap and open listeners), focuses the
trigger only for a keyboard event, sets the menu's `pointer-events` to
`'none'`, dispatches `aria-close`, and clears the global `activeMenu` if it
pointed at this menu. -/
def onHide (opts : AriaMenuOptions) (ev : EvKind) (s : MenuState) :
    MenuState × List MenuFx :=
  let kb := isKeyboardEvent ev
  let s1 := { s with trapInstalled := false }
  let s2 := if kb && s1.trigger.isSome then { s1 with focusTarget := .triggerEl } else s1
  let fx0 : List MenuFx :=
    [.openDisposalDisposed] ++ (if kb && s.trigger.isSome then [.focusTrigger] else [])
  match s2.menuEl with
  | some m =>
    ({ s2 with
        menuEl := some { m with stylePointerEvents := some "none" }
        activeMenuThis := false },
     fx0 ++ [.ariaCloseDispatched])
  | none => ({ s2 with activeMenuThis := false }, fx0)

/-- Embeds `onChange(event, force)`: compute the requested open state
(forced, or the toggle of the `_isMenuOpen` store); return immediately when
the menu element's `aria-hidden` already equals `String(!open)`; otherwise
reflect `aria-expanded` / `aria-hidden`, toggle the document scrollbar when
`preventScroll` is set, schedule the store write on the next animation
frame, and run the show or hide sequence. -/
def onChange (opts : AriaMenuOptions) (ev : EvKind) (force : Option Bool)
    (s : MenuState) : MenuState × List MenuFx :=
  let openTgt := match force with
    | some b => b
    | none => !s.isMenuOpenStore
  let alreadyThere : Bool := match s.menuEl with
    | some m => m.ariaHidden == some (boolStr (!openTgt))
    | none => false
  if alreadyThere then (s, [])
  else
    let s1 := { s with
      trigger := s.trigger.map fun (t : ElAttrs) =>
        { t with ariaExpanded := some (boolStr openTgt) } }
    let s2 := { s1 with
      menuEl := s1.menuEl.map fun (m : ElAttrs) =>
        { m with ariaHidden := some (boolStr (!openTgt)) } }
    let s3 := if opts.preventScroll then { s2 with scrollbarHidden := openTgt } else s2
    let s4 := { s3 with pendingFrame := some openTgt }
    let fxa : List MenuFx :=
      (if s.trigger.isSome then [.setAriaExpanded (boolStr openTgt)] else [])
        ++ (if s.menuEl.isSome then [.setAriaHidden (boolStr (!openTgt))] else [])
        ++ (if opts.preventScroll then [.scrollbarToggle openTgt] else [])
        ++ [.frameScheduled]
    let r := if openTgt then onShow opts ev s4 else onHide opts ev s4
    (r.1, fxa ++ r.2)

/-- The scheduled `requestAnimationFrame` callback: commit the pending
`_isMenuOpen.set(open)` store write. -/
def runFrame (s : MenuState) : MenuState :=
  match s.pendingFrame with
  | some b => { s with isMenuOpenStore := b, pendingFrame := none }
  | none => s

/-- Embeds the returned `openMenu(event)`: `onChange(event, true)`. -/
def openMenu (opts : AriaMenuOptions) (ev : EvKind) (s : MenuState) :
    MenuState × List MenuFx :=
  onChange opts ev (some true) s

/-- Embeds the returned `closeMenu(event)`: `onChange(event, false)`. -/
def closeMenu (opts : AriaMenuOptions) (ev : EvKind) (s : MenuState) :
    MenuState × List MenuFx :=
  onChange opts ev (some false) s

/-- The `onEscape` handler wired into `createFocusTrap` (`focus-trap.ts` is
not under `src/`; modelled from the spec, the trap invokes it on the Escape
keydown, a keyboard event): `onChange(event, false)`. -/
def onEscape (opts : AriaMenuOptions) (s : MenuState) : MenuState × List MenuFx :=
  onChange opts .keyboard (some false) s

lemma onShow_menuEl (opts : AriaMenuOptions) (ev : EvKind) (s : MenuState) (m : ElAttrs)
    (hm : s.menuEl = some m) :
    (onShow opts ev s).1.menuEl = some { m with stylePointerEvents := some "" } := by
  simp [onShow, hm]

lemma onHide_menuEl (opts : AriaMenuOptions) (ev : EvKind) (s : MenuState) (m : ElAttrs)
    (hm : s.menuEl = some m) :
    (onHide opts ev s).1.menuEl = some { m with stylePointerEvents := some "none" } := by
  by_cases hkb : (isKeyboardEvent ev
      && ({ s with trapInstalled := false } : MenuState).trigger.isSome) = true
  · simp [onHide, hkb, hm]
  · rw [Bool.not_eq_true] at hkb
    simp [onHide, hkb, hm]

lemma openMenu_guard (opts : AriaMenuOptions) (ev : EvKind) (s : MenuState) (m : ElAttrs)
    (hm : s.menuEl = some m) (h : m.ariaHidden = some "false") :
    openMenu opts ev s = (s, []) := by
  simp [openMenu, onChange, hm, h, boolStr]

lemma closeMenu_guard (opts : AriaMenuOptions) (ev : EvKind) (s : MenuState) (m : ElAttrs)
    (hm : s.menuEl = some m) (h : m.ariaHidden = some "true") :
    closeMenu opts ev s = (s, []) := by
  simp [closeMenu, onChange, hm, h, boolStr]

lemma openMenu_ariaHidden (opts : AriaMenuOptions) (ev : EvKind) (s : MenuState) (m : ElAttrs)
    (hm : s.menuEl = some m) :
    ∃ m2, (openMenu opts ev s).1.menuEl = some m2 ∧ m2.ariaHidden = some "false" := by
  by_cases h : m.ariaHidden = some "false"
  · exact ⟨m, by rw [openMenu_guard opts ev s m hm h]; exact hm, h⟩
  · have halready : (m.ariaHidden == some "false") = false := by
      simpa using h
    refine ⟨{ m with ariaHidden := some "false", stylePointerEvents := some "" }, ?_, rfl⟩
    rcases hps : opts.preventScroll with _ | _ <;>
      simp [openMenu, onChange, hm, halready, boolStr, onShow, hps]

lemma closeMenu_ariaHidden (opts : AriaMenuOptions) (ev : EvKind) (s : MenuState) (m : ElAttrs)
    (hm : s.menuEl = some m) :
    ∃ m2, (closeMenu opts ev s).1.menuEl = some m2 ∧ m2.ariaHidden = some "true" := by
  by_cases h : m.ariaHidden = some "true"
  · exact ⟨m, by rw [closeMenu_guard opts ev s m hm h]; exact hm, h⟩
  · have halready : (m.ariaHidden == some "true") = false := by
      simpa using h
    refine ⟨{ m with ariaHidden := some "true", stylePointerEvents := some "none" }, ?_, rfl⟩
    rcases hps : opts.preventScroll with _ | _ <;>
      cases ev <;>
      rcases htr : s.trigger.isSome with _ | _ <;>
      simp [closeMenu, onChange, hm, halready, boolStr, onHide, isKeyboardEvent, hps, htr]

/-- Default options (`createAriaMenu({})`) for concrete runs. -/
def exOpts : AriaMenuOptions := {}

/-- A trigger element after `menuTrigger(el)` on an attribute-less element,
for instance counter 1. -/
def exTrigger : ElAttrs := menuTrigger 1 exOpts {}

/-- A menu element after `menu(el)` on an attribute-less element, for
instance counter 1. -/
def exMenu : ElAttrs := menu 1 exOpts {}

/-- The instance state right after both actions attached. -/
def exState : MenuState := { trigger := some exTrigger, menuEl := some exMenu }

/-- The state after opening the attached menu with a pointer event. -/
def exPointerOpened : MenuState := (openMenu exOpts .pointer exState).1

/-- The state after opening the attached menu with a keyboard event. -/
def exKeyboardOpened : MenuState := (openMenu exOpts .keyboard exState).1

end AriaMenu

/-! ## Quality/track selection (modelled from the spec) -/

namespace Selection

/-- Modelled from the spec: the media store's quality/track management code
is not under `src/` (only the `useMediaStore` consumer reading `qualities`,
`quality`, `autoQuality` and `canSetQuality` is); per the spec, quality and
track entities are ordered sequences of rendition descriptors.  A rendition
is a descriptor (abstracted to a tag) plus its active flag. -/
structure Rendition where
  tag : ℕ
  selected : Bool
  deriving DecidableEq

/-- Modelled from the spec: a quality (or track) collection — an ordered
sequence of renditions plus the auto-selection mode flag. -/
structure MediaSelection where
  items : List Rendition
  autoMode : Bool
  deriving DecidableEq

/-- Clear the active flag on every rendition. -/
def clearSelected (l : List Rendition) : List Rendition :=
  l.map fun r => { r with selected := false }

/-- Modelled from the spec: index-based selection marks the rendition at
index `i` active and every other rendition inactive (an out-of-range index
activates nothing). -/
def selectAt : List Rendition → ℕ → List Rendition
  | [], _ => []
  | r :: rs, 0 => { r with selected := true } :: clearSelected rs
  | r :: rs, i + 1 => { r with selected := false } :: selectAt rs i

/-- Modelled from the spec: one store mutation — a rendition becomes
available (appended inactive), an index-based selection, or toggling auto
mode. -/
inductive SelStep : MediaSelection → MediaSelection → Prop
  | add (q : MediaSelection) (t : ℕ) :
      SelStep q { q with items := q.items ++ [{ tag := t, selected := false }] }
  | select (q : MediaSelection) (i : ℕ) :
      SelStep q { q with items := selectAt q.items i }
  | setAuto (q : MediaSelection) (b : Bool) :
      SelStep q { q with autoMode := b }

/-- Collections reachable from an empty one by store mutations. -/
inductive SelReachable : MediaSelection → Prop
  | init (b : Bool) : SelReachable { items := [], autoMode := b }
  | step {q q2 : MediaSelection} : SelReachable q → SelStep q q2 → SelReachable q2

/-- The number of active renditions. -/
def activeCount (q : MediaSelection) : ℕ := q.items.countP (·.selected)

lemma countP_clearSelected (l : List Rendition) :
    (clearSelected l).countP (·.selected) = 0 := by
  induction l with
  | nil => rfl
  | cons r rs ih =>
    simp only [clearSelected, List.map_cons, List.countP_cons] at ih ⊢
    simp [ih]

lemma countP_selectAt (l : List Rendition) :
    ∀ i, (selectAt l i).countP (·.selected) ≤ 1 := by
  induction l with
  | nil => intro i; simp [selectAt]
  | cons r rs ih =>
    intro i
    cases i with
    | zero =>
      simp [selectAt, List.countP_cons, countP_clearSelected]
    | succ i =>
      simpa [selectAt, List.countP_cons] using ih i

lemma tags_clearSelected (l : List Rendition) :
    (clearSelected l).map (·.tag) = l.map (·.tag) := by
  induction l with
  | nil => rfl
  | cons r rs ih =>
    simp only [clearSelected, List.map_cons] at ih ⊢
    simp [ih]

lemma tags_selectAt (l : List Rendition) :
    ∀ i, (selectAt l i).map (·.tag) = l.map (·.tag) := by
  induction l with
  | nil => intro i; rfl
  | cons r rs ih =>
    intro i
    cases i with
    | zero => simp [selectAt, tags_clearSelected]
    | succ i => simp [selectAt, ih i]

lemma reachable_activeCount_le_one (q : MediaSelection) (h : SelReachable q) :
    activeCount q ≤ 1 := by
  induction h with
  | init b => simp [activeCount]
  | @step q0 q2 hreach hstep ih =>
    cases hstep with
    | add t =>
      simpa [activeCount, List.countP_append] using ih
    | select i =>
      simpa [activeCount] using countP_selectAt q0.items i
    | setAuto b =>
      simpa [activeCount] using ih

end Selection

/-- C1: `MediaLoadController.onAttach` defers the init callback per the
configured trigger: `'eager'` schedules it on the next animation frame,
`'idle'` in an idle period, `'visible'` behind an intersection observer that
fires the callback exactly on the first intersecting delivery after
disconnecting itself (so at most once); any other strategy, and always on
the server, never invokes the callback. -/
theorem c1_load_controller_defers_init :
    (∀ load : String, MediaLoad.onAttach true load = .noop) ∧
    MediaLoad.onAttach false "eager" = .raf ∧
    MediaLoad.onAttach false "idle" = .idlePeriod ∧
    MediaLoad.onAttach false "visible" = .observeVisible ∧
    (∀ load : String, load ≠ "eager" → load ≠ "idle" → load ≠ "visible" →
      MediaLoad.onAttach false load = .noop) ∧
    (∀ batches : List Bool, (MediaLoad.obsRun batches).fired ≤ 1) ∧
    (∀ batches : List Bool,
      (MediaLoad.obsRun batches).fired = 1 ↔ batches.any id = true) ∧
    (∀ batches : List Bool, 1 ≤ (MediaLoad.obsRun batches).fired →
      (MediaLoad.obsRun batches).connected = false) ∧
    (∀ s : MediaLoad.ObsState, ∀ b : Bool, s.connected = false →
      MediaLoad.obsStep s b = s) := by
  refine ⟨?_, rfl, rfl, rfl, ?_, ?_, ?_, ?_, MediaLoad.obsStep_not_connected⟩
  · intro load; rfl
  · intro load h1 h2 h3
    simp [MediaLoad.onAttach, h1, h2, h3]
  · intro batches
    rw [MediaLoad.obsRun_fired]
    split <;> simp
  · intro batches
    rw [MediaLoad.obsRun_fired]
    split <;> simp_all
  · intro batches h
    rw [MediaLoad.obsRun_fired] at h
    rw [MediaLoad.obsRun_connected]
    rcases hb : batches.any id with _ | _
    · rw [hb] at h; simp at h
    · simp

/-- C2: for every defined DASH library and every environment, the load
attempt's event trace opens with exactly one `dash-lib-load-start`, contains
exactly one of `dash-lib-loaded` / `dash-lib-load-error`, and every
`dash-lib-loaded` (which carries the constructor) is immediately followed by
the success callback invoked with that same constructor. -/
theorem c2_dash_load_lifecycle (lib : Dash.DashLib) (env : Dash.DashEnv)
    (hlib : lib ≠ .undef) :
    ((Dash.startLoading lib env).2.head? = some .dashLibLoadStart) ∧
    (Dash.startLoading lib env).2.countP Dash.isStartEv = 1 ∧
    (Dash.startLoading lib env).2.countP Dash.isLoadedEv
      + (Dash.startLoading lib env).2.countP Dash.isErrorEv = 1 ∧
    Dash.loadedThenCallback (Dash.startLoading lib env).2 = true := by
  obtain ⟨slo, wc, sms⟩ := env
  cases lib with
  | url s =>
    cases slo <;> rcases wc with _ | c <;> cases sms <;>
      simp [Dash.startLoading, Dash.loadDASHScript, Dash.importDASH, Dash.DashLib.isStr,
        Dash.interpretCb, Dash.isStartEv, Dash.isLoadedEv, Dash.isErrorEv,
        Dash.loadedThenCallback, Dash.coerceToError, List.countP_cons]
  | staticCtor c =>
    cases sms <;>
      simp [Dash.startLoading, Dash.loadDASHScript, Dash.importDASH, Dash.DashLib.isStr,
        Dash.interpretCb, Dash.isStartEv, Dash.isLoadedEv, Dash.isErrorEv,
        Dash.loadedThenCallback, Dash.coerceToError, List.countP_cons]
  | dynLoader res =>
    rcases res with _ | c <;> cases sms <;>
      simp [Dash.startLoading, Dash.loadDASHScript, Dash.importDASH, Dash.DashLib.isStr,
        Dash.interpretCb, Dash.isStartEv, Dash.isLoadedEv, Dash.isErrorEv,
        Dash.loadedThenCallback, Dash.coerceToError, List.countP_cons]
  | undef => exact absurd rfl hlib

/-- Witness for C2 at a concrete input: a statically imported constructor
in a supported environment. -/
theorem c2_witness :
    ((Dash.startLoading (.staticCtor 7) ⟨true, none, true⟩).2.head?
        = some .dashLibLoadStart) ∧
    (Dash.startLoading (.staticCtor 7) ⟨true, none, true⟩).2.countP Dash.isStartEv = 1 ∧
    (Dash.startLoading (.staticCtor 7) ⟨true, none, true⟩).2.countP Dash.isLoadedEv
      + (Dash.startLoading (.staticCtor 7) ⟨true, none, true⟩).2.countP Dash.isErrorEv = 1 ∧
    Dash.loadedThenCallback (Dash.startLoading (.staticCtor 7) ⟨true, none, true⟩).2 = true :=
  c2_dash_load_lifecycle (.staticCtor 7) ⟨true, none, true⟩ (by decide)

/-- C8: DASH loading converts failures into error reports instead of
throwing: `loadDASHScript` returns `undefined` for every non-string source
without invoking any callback; each listed failure path (script load
rejection, missing `window.dashjs.MediaPlayer`, invalid dynamic-import
constructor, no MediaSource support) makes `_startLoading` resolve `null`,
and each of those error/unsupported outcomes notifies the delegate with
code 4. -/
theorem c8_dash_failures_reported :
    (∀ (src : Dash.DashLib) (env : Dash.DashEnv), src.isStr = false →
      Dash.loadDASHScript src env = (none, [])) ∧
    (∀ (s : String) (env : Dash.DashEnv), env.scriptLoadOk = false →
      (Dash.startLoading (.url s) env).1 = none ∧
      .errorNotified 4 ∈ (Dash.startLoading (.url s) env).2) ∧
    (∀ (s : String) (env : Dash.DashEnv),
      env.scriptLoadOk = true → env.windowCtor = none →
      (Dash.startLoading (.url s) env).1 = none ∧
      .errorNotified 4 ∈ (Dash.startLoading (.url s) env).2) ∧
    (∀ env : Dash.DashEnv,
      (Dash.startLoading (.dynLoader none) env).1 = none ∧
      .errorNotified 4 ∈ (Dash.startLoading (.dynLoader none) env).2) ∧
    (∀ (lib : Dash.DashLib) (env : Dash.DashEnv), env.supportsMediaSource = false →
      (Dash.startLoading lib env).1 = none) ∧
    (∀ (c : Nat) (env : Dash.DashEnv), env.supportsMediaSource = false →
      .errorNotified 4 ∈ (Dash.startLoading (.staticCtor c) env).2) := by
  refine ⟨?_, ?_, ?_, ?_, ?_, ?_⟩
  · intro src env h
    cases src <;> simp_all [Dash.loadDASHScript, Dash.DashLib.isStr]
  · intro s env h
    obtain ⟨slo, wc, sms⟩ := env
    subst h
    cases sms <;> rcases wc with _ | c <;>
      simp [Dash.startLoading, Dash.loadDASHScript, Dash.DashLib.isStr,
        Dash.interpretCb, Dash.coerceToError]
  · intro s env h1 h2
    obtain ⟨slo, wc, sms⟩ := env
    subst h1; subst h2
    cases sms <;>
      simp [Dash.startLoading, Dash.loadDASHScript, Dash.DashLib.isStr,
        Dash.interpretCb, Dash.coerceToError]
  · intro env
    obtain ⟨slo, wc, sms⟩ := env
    cases slo <;> cases sms <;> rcases wc with _ | c <;>
      simp [Dash.startLoading, Dash.loadDASHScript, Dash.importDASH, Dash.DashLib.isStr,
        Dash.interpretCb, Dash.coerceToError]
  · intro lib env h
    obtain ⟨slo, wc, sms⟩ := env
    subst h
    cases lib with
    | url s =>
      cases slo <;> rcases wc with _ | c <;>
        simp [Dash.startLoading, Dash.loadDASHScript, Dash.importDASH, Dash.DashLib.isStr,
          Dash.interpretCb, Dash.coerceToError]
    | staticCtor c =>
      simp [Dash.startLoading, Dash.loadDASHScript, Dash.importDASH, Dash.DashLib.isStr,
        Dash.interpretCb, Dash.coerceToError]
    | dynLoader res =>
      rcases res with _ | c <;>
        simp [Dash.startLoading, Dash.loadDASHScript, Dash.importDASH, Dash.DashLib.isStr,
          Dash.interpretCb, Dash.coerceToError]
    | undef =>
      simp [Dash.startLoading, Dash.loadDASHScript, Dash.importDASH, Dash.DashLib.isStr,
        Dash.interpretCb, Dash.coerceToError]
  · intro c env h
    obtain ⟨slo, wc, sms⟩ := env
    subst h
    cases slo <;> rcases wc with _ | c2 <;>
      simp [Dash.startLoading, Dash.loadDASHScript, Dash.importDASH, Dash.DashLib.isStr,
        Dash.interpretCb, Dash.coerceToError]

/-- Witness for C8 at concrete inputs: a static constructor given to
`loadDASHScript`, a rejecting script URL, and an unsupported environment. -/
theorem c8_witness :
    Dash.loadDASHScript (.staticCtor 3) ⟨true, none, true⟩ = (none, []) ∧
    ((Dash.startLoading (.url "https://cdn/dash.js") ⟨false, none, true⟩).1 = none ∧
      .errorNotified 4 ∈ (Dash.startLoading (.url "https://cdn/dash.js") ⟨false, none, true⟩).2) ∧
    (Dash.startLoading (.staticCtor 3) ⟨true, none, false⟩).1 = none :=
  ⟨c8_dash_failures_reported.1 (.staticCtor 3) ⟨true, none, true⟩ (by decide),
   c8_dash_failures_reported.2.1 "https://cdn/dash.js" ⟨false, none, true⟩ (by decide),
   c8_dash_failures_reported.2.2.2.2.1 (.staticCtor 3) ⟨true, none, false⟩ (by decide)⟩

/-- Witness for C1 at concrete inputs: the `'custom'` strategy schedules
nothing, and a visibility sequence that intersects on its second delivery
fires the callback exactly once. -/
theorem c1_witness :
    MediaLoad.onAttach false "custom" = .noop ∧
    (MediaLoad.obsRun [false, true, false]).fired = 1 := by
  constructor
  · exact c1_load_controller_defers_init.2.2.2.2.1 "custom"
      (by decide) (by decide) (by decide)
  · exact (c1_load_controller_defers_init.2.2.2.2.2.2.1 [false, true, false]).mpr (by decide)

/-- C3: the volume slider never writes the media store's volume directly:
a slider value-change with value `v ∈ [0, 100]` updates only the
widget-local `currentVolume` and issues the single intent command
`changeVolume(round(v / 100, 3))`, leaving the mirrored `mediaVolume`
untouched; the displayed `currentVolume` is recomputed from the store's
volume context only when `update` sees `mediaVolume` among the changed
properties. -/
theorem c3_volume_slider_store_mediation
    (s : VolumeSlider.Elem) (v : ℚ) (h0 : 0 ≤ v) (h1 : v ≤ 100) :
    VolumeSlider.handleSliderValueChange s v =
      ({ s with currentVolume := v },
       [.changeVolume (VolumeSlider.jsRound (v / 100) 3)]) ∧
    (VolumeSlider.handleSliderValueChange s v).1.mediaVolume = s.mediaVolume ∧
    (∀ t : VolumeSlider.Elem, VolumeSlider.update t false = t) ∧
    (∀ t : VolumeSlider.Elem,
      (VolumeSlider.update t true).currentVolume = t.mediaVolume * 100) := by
  refine ⟨rfl, rfl, ?_, ?_⟩
  · intro t; simp [VolumeSlider.update]
  · intro t; simp [VolumeSlider.update]

/-- Witness for C3 at a concrete input: value 30 on the freshly
constructed element (initial context volume 1). -/
theorem c3_witness :
    VolumeSlider.handleSliderValueChange (VolumeSlider.initElem 1) 30 =
      ({ VolumeSlider.initElem 1 with currentVolume := 30 },
       [.changeVolume (VolumeSlider.jsRound (30 / 100) 3)]) :=
  (c3_volume_slider_store_mediation (VolumeSlider.initElem 1) 30
    (by norm_num) (by norm_num)).1

/-- C9: volume values round-trip between the media store and the widget:
after the volume context updates to `v ∈ [0, 1]`, `currentVolume = v * 100`
and the `volume` getter returns `round(v * 100 / 100, 3) = round(v, 3)`;
for any `v` with at most three decimal places the getter returns exactly
`v`. -/
theorem c9_volume_round_trip
    (s : VolumeSlider.Elem) (v : ℚ) (h0 : 0 ≤ v) (h1 : v ≤ 1) :
    (VolumeSlider.onMediaVolumeChange s v).currentVolume = v * 100 ∧
    VolumeSlider.volume (VolumeSlider.onMediaVolumeChange s v)
      = VolumeSlider.jsRound v 3 ∧
    (∀ k : ℤ, v = (k : ℚ) / 1000 →
      VolumeSlider.volume (VolumeSlider.onMediaVolumeChange s v) = v) := by
  have hcv : (VolumeSlider.onMediaVolumeChange s v).currentVolume = v * 100 := by
    simp [VolumeSlider.onMediaVolumeChange, VolumeSlider.update]
  have hdiv : v * 100 / 100 = v := by
    field_simp
  have hget : VolumeSlider.volume (VolumeSlider.onMediaVolumeChange s v)
      = VolumeSlider.jsRound v 3 := by
    rw [VolumeSlider.volume, hcv, hdiv]
  refine ⟨hcv, hget, ?_⟩
  intro k hk
  rw [hget, VolumeSlider.jsRound, hk]
  have h1000 : ((k : ℚ) / 1000) * 10 ^ 3 = (k : ℚ) := by
    norm_num
  rw [h1000, round_intCast]
  norm_num

/-- Witness for C9 at a concrete input: the store volume updating to
`0.305`, which has three decimal places and survives the round-trip. -/
theorem c9_witness :
    (VolumeSlider.onMediaVolumeChange (VolumeSlider.initElem 1) (305 / 1000)).currentVolume
      = (305 / 1000 : ℚ) * 100 ∧
    VolumeSlider.volume (VolumeSlider.onMediaVolumeChange (VolumeSlider.initElem 1) (305 / 1000))
      = (305 / 1000 : ℚ) := by
  have h := c9_volume_round_trip (VolumeSlider.initElem 1) (305 / 1000)
    (by norm_num) (by norm_num)
  exact ⟨h.1, h.2.2 305 (by norm_num)⟩

/-- C6: widget interaction state is ephemeral and reset on release: every
drag-start sets the `dragging` attribute and every drag-end removes it, so
any completed gesture (drag-start, any value changes, drag-end) leaves the
element without the attribute; the slider store's `dragging` and `pointing`
flags both start `false` (and `interactive` derives from them). -/
theorem c6_interaction_state_ephemeral :
    (∀ s : VolumeSlider.Elem,
      (VolumeSlider.handleSliderDragStart s).draggingAttr = true) ∧
    (∀ s : VolumeSlider.Elem,
      (VolumeSlider.handleSliderDragEnd s).draggingAttr = false) ∧
    (∀ (s : VolumeSlider.Elem) (vs : List ℚ),
      (VolumeSlider.handleSliderDragEnd
        (vs.foldl (fun t v => (VolumeSlider.handleSliderValueChange t v).1)
          (VolumeSlider.handleSliderDragStart s))).draggingAttr = false) ∧
    SliderStore.createSliderStore.dragging = false ∧
    SliderStore.createSliderStore.pointing = false ∧
    SliderStore.interactive SliderStore.createSliderStore = false := by
  refine ⟨fun s => rfl, fun s => rfl, ?_, rfl, rfl, rfl⟩
  intro s vs
  simp [VolumeSlider.handleSliderDragEnd]

/-- C4 counterexample: opening the attached menu with a *pointer* event
leaves it open (`aria-hidden` `'false'`, `activeMenu` set) with no focus
trap installed and focus not on the menu — refuting the claim that focus is
constrained within the menu whenever the overlay is open and that the menu
receives focus on open. -/
theorem c4_counterexample_pointer_open_no_trap :
    AriaMenu.exPointerOpened.menuEl.map AriaMenu.ElAttrs.ariaHidden
      = some (some "false") ∧
    AriaMenu.exPointerOpened.activeMenuThis = true ∧
    AriaMenu.exPointerOpened.trapInstalled = false ∧
    AriaMenu.exPointerOpened.focusTarget ≠ .menuEl := by
  refine ⟨?_, ?_, ?_, ?_⟩ <;> decide

/-- C4 (amended): when the menu is opened via a *keyboard* event, the focus
trap is installed on it and the menu receives focus; on the escape key
(delivered by the focus trap as a keyboard event) the menu closes, the open
disposal removes the trap, and focus returns to the trigger element. -/
theorem c4_amended_keyboard_focus_trap :
    (∀ (opts : AriaMenu.AriaMenuOptions) (s : AriaMenu.MenuState) (m : AriaMenu.ElAttrs),
      s.menuEl = some m → m.ariaHidden ≠ some "false" →
      (AriaMenu.openMenu opts .keyboard s).1.trapInstalled = true ∧
      (AriaMenu.openMenu opts .keyboard s).1.focusTarget = .menuEl ∧
      .trapInstall ∈ (AriaMenu.openMenu opts .keyboard s).2 ∧
      .focusMenu ∈ (AriaMenu.openMenu opts .keyboard s).2) ∧
    (∀ (opts : AriaMenu.AriaMenuOptions) (s : AriaMenu.MenuState) (m : AriaMenu.ElAttrs),
      s.menuEl = some m → m.ariaHidden = some "false" → s.trigger.isSome = true →
      (∃ m2, (AriaMenu.onEscape opts s).1.menuEl = some m2 ∧
        m2.ariaHidden = some "true") ∧
      (AriaMenu.onEscape opts s).1.trapInstalled = false ∧
      (AriaMenu.onEscape opts s).1.focusTarget = .triggerEl) := by
  constructor
  · intro opts s m hm h
    have halready : (m.ariaHidden == some "false") = false := by
      simpa using h
    rcases hps : opts.preventScroll with _ | _ <;>
      simp [AriaMenu.openMenu, AriaMenu.onChange, hm, halready, AriaMenu.boolStr,
        AriaMenu.onShow, AriaMenu.isKeyboardEvent, hps]
  · intro opts s m hm h htr
    have halready : (m.ariaHidden == some "true") = false := by
      rw [h]
      decide
    refine ⟨AriaMenu.closeMenu_ariaHidden opts .keyboard s m hm, ?_, ?_⟩ <;>
    · rcases hps : opts.preventScroll with _ | _ <;>
        simp [AriaMenu.onEscape, AriaMenu.closeMenu, AriaMenu.onChange, hm, halready,
          AriaMenu.boolStr, AriaMenu.onHide, AriaMenu.isKeyboardEvent, hps, htr]

/-- Witness for the amended C4 at concrete inputs: the default-options menu
instance, opened via keyboard and then escaped. -/
theorem c4_amended_witness :
    AriaMenu.exKeyboardOpened.trapInstalled = true ∧
    AriaMenu.exKeyboardOpened.focusTarget = .menuEl ∧
    (AriaMenu.onEscape AriaMenu.exOpts AriaMenu.exKeyboardOpened).1.trapInstalled = false ∧
    (AriaMenu.onEscape AriaMenu.exOpts AriaMenu.exKeyboardOpened).1.focusTarget
      = .triggerEl := by
  have h1 := c4_amended_keyboard_focus_trap.1 AriaMenu.exOpts AriaMenu.exState
    AriaMenu.exMenu rfl (by decide)
  have h2 := c4_amended_keyboard_focus_trap.2 AriaMenu.exOpts AriaMenu.exKeyboardOpened
    { AriaMenu.exMenu with ariaHidden := some "false", stylePointerEvents := some "" }
    (by decide) (by decide) (by decide)
  exact ⟨h1.1, h1.2.1, h2.2.1, h2.2.2⟩

/-- C5: attaching the controls establishes the accessibility contract:
`menuTrigger(el)` gives the trigger the (injective, hence unique) generated
id, role `'button'` only when no role was present, `aria-controls` naming
the menu id, `aria-expanded` `'false'` and `aria-haspopup` of the
configured type defaulting to `'menu'`; `menu(el)` gives the menu the
matching id, role `'menu'`, tabindex `'-1'`, `aria-hidden` `'true'`,
`aria-describedby` naming the trigger id, display `'none'` and
pointer-events `'none'`. -/
theorem c5_attribute_contract (n : ℕ) (opts : AriaMenu.AriaMenuOptions)
    (t el : AriaMenu.ElAttrs) :
    (AriaMenu.menuTrigger n opts t).idAttr = some (AriaMenu.triggerIdStr n) ∧
    (AriaMenu.menuTrigger n opts t).role
      = (if t.role = none then some "button" else t.role) ∧
    (AriaMenu.menuTrigger n opts t).ariaControls = some (AriaMenu.menuIdStr n) ∧
    (AriaMenu.menuTrigger n opts t).ariaExpanded = some "false" ∧
    (AriaMenu.menuTrigger n opts t).ariaHaspopup = some (opts.type.getD "menu") ∧
    (AriaMenu.menu n opts el).idAttr = some (AriaMenu.menuIdStr n) ∧
    (AriaMenu.menu n opts el).role = some "menu" ∧
    (AriaMenu.menu n opts el).tabindex = some "-1" ∧
    (AriaMenu.menu n opts el).ariaHidden = some "true" ∧
    (AriaMenu.menu n opts el).ariaDescribedby = some (AriaMenu.triggerIdStr n) ∧
    (AriaMenu.menu n opts el).styleDisplay = some "none" ∧
    (AriaMenu.menu n opts el).stylePointerEvents = some "none" ∧
    (∀ a b : ℕ, AriaMenu.triggerIdStr a = AriaMenu.triggerIdStr b → a = b) ∧
    (∀ a b : ℕ, AriaMenu.menuIdStr a = AriaMenu.menuIdStr b → a = b) ∧
    (∀ a b : ℕ, AriaMenu.triggerIdStr a ≠ AriaMenu.menuIdStr b) :=
  ⟨rfl, rfl, rfl, rfl, rfl, rfl, rfl, rfl, rfl, rfl, rfl, rfl,
   AriaMenu.triggerIdStr_inj, AriaMenu.menuIdStr_inj, AriaMenu.triggerIdStr_ne_menuIdStr⟩

/-- Witness for C5 at concrete inputs: instance 1 on attribute-less
elements, and distinctness of concrete generated ids. -/
theorem c5_witness :
    (AriaMenu.menuTrigger 1 {} {}).ariaExpanded = some "false" ∧
    (AriaMenu.menu 1 {} {}).ariaHidden = some "true" ∧
    (1 : ℕ) = 1 ∧
    AriaMenu.triggerIdStr 1 ≠ AriaMenu.menuIdStr 1 := by
  have h := c5_attribute_contract 1 {} {} {}
  exact ⟨h.2.2.2.1, h.2.2.2.2.2.2.2.2.1,
    h.2.2.2.2.2.2.2.2.2.2.2.2.1 1 1 rfl,
    h.2.2.2.2.2.2.2.2.2.2.2.2.2.2 1 1⟩

/-- C10: the open/close transition is idempotent: a call of `onChange`
(through `openMenu` / `closeMenu`) whose requested state the menu's
`aria-hidden` attribute already reflects returns the state unchanged with
no observable effect; hence opening twice in succession equals opening
once, and likewise for closing. -/
theorem c10_open_close_idempotent :
    (∀ (opts : AriaMenu.AriaMenuOptions) (ev : AriaMenu.EvKind)
        (s : AriaMenu.MenuState) (m : AriaMenu.ElAttrs),
      s.menuEl = some m → m.ariaHidden = some "false" →
      AriaMenu.openMenu opts ev s = (s, [])) ∧
    (∀ (opts : AriaMenu.AriaMenuOptions) (ev : AriaMenu.EvKind)
        (s : AriaMenu.MenuState) (m : AriaMenu.ElAttrs),
      s.menuEl = some m → m.ariaHidden = some "true" →
      AriaMenu.closeMenu opts ev s = (s, [])) ∧
    (∀ (opts : AriaMenu.AriaMenuOptions) (ev ev2 : AriaMenu.EvKind)
        (s : AriaMenu.MenuState) (m : AriaMenu.ElAttrs), s.menuEl = some m →
      AriaMenu.openMenu opts ev2 (AriaMenu.openMenu opts ev s).1
        = ((AriaMenu.openMenu opts ev s).1, [])) ∧
    (∀ (opts : AriaMenu.AriaMenuOptions) (ev ev2 : AriaMenu.EvKind)
        (s : AriaMenu.MenuState) (m : AriaMenu.ElAttrs), s.menuEl = some m →
      AriaMenu.closeMenu opts ev2 (AriaMenu.closeMenu opts ev s).1
        = ((AriaMenu.closeMenu opts ev s).1, [])) := by
  refine ⟨AriaMenu.openMenu_guard, AriaMenu.closeMenu_guard, ?_, ?_⟩
  · intro opts ev ev2 s m hm
    obtain ⟨m2, hm2, hhid⟩ := AriaMenu.openMenu_ariaHidden opts ev s m hm
    exact AriaMenu.openMenu_guard opts ev2 _ m2 hm2 hhid
  · intro opts ev ev2 s m hm
    obtain ⟨m2, hm2, hhid⟩ := AriaMenu.closeMenu_ariaHidden opts ev s m hm
    exact AriaMenu.closeMenu_guard opts ev2 _ m2 hm2 hhid

/-- Witness for C10 at concrete inputs: the freshly attached menu
(`aria-hidden` `'true'`) ignores a second close, and a double keyboard open
equals a single one. -/
theorem c10_witness :
    AriaMenu.closeMenu AriaMenu.exOpts .keyboard AriaMenu.exState
      = (AriaMenu.exState, []) ∧
    AriaMenu.openMenu AriaMenu.exOpts .keyboard
        (AriaMenu.openMenu AriaMenu.exOpts .keyboard AriaMenu.exState).1
      = ((AriaMenu.openMenu AriaMenu.exOpts .keyboard AriaMenu.exState).1, []) :=
  ⟨c10_open_close_idempotent.2.1 AriaMenu.exOpts .keyboard AriaMenu.exState
      AriaMenu.exMenu rfl (by decide),
   c10_open_close_idempotent.2.2.1 AriaMenu.exOpts .keyboard .keyboard AriaMenu.exState
      AriaMenu.exMenu rfl⟩

/-- C7: in every reachable quality/track collection with auto mode off, at
most one rendition is active; collections are ordered sequences and
index-based selection preserves the sequence of descriptors and its
length. -/
theorem c7_at_most_one_active (q : Selection.MediaSelection)
    (h : Selection.SelReachable q) (hauto : q.autoMode = false) :
    Selection.activeCount q ≤ 1 ∧
    (∀ i, (Selection.selectAt q.items i).map (·.tag) = q.items.map (·.tag)) ∧
    (∀ i, (Selection.selectAt q.items i).length = q.items.length) := by
  refine ⟨Selection.reachable_activeCount_le_one q h, Selection.tags_selectAt q.items, ?_⟩
  intro i
  have := congrArg List.length (Selection.tags_selectAt q.items i)
  simpa using this

/-- Witness for C7 at a concrete input: a collection reached by adding one
rendition and selecting index 0. -/
theorem c7_witness :
    Selection.activeCount
      { items := [{ tag := 5, selected := true }], autoMode := false } ≤ 1 := by
  have h0 := Selection.SelReachable.init false
  have h1 := Selection.SelReachable.step h0 (Selection.SelStep.add _ 5)
  have h2 := Selection.SelReachable.step h1 (Selection.SelStep.select _ 0)
  exact (c7_at_most_one_active _ h2 rfl).1

end Player
